import Mathlib

/-!
Shallow embedding of the conversation parameter state machine of the
`ai-chat-to-search` backend (file `backend/next.config.mjs` bundle and the
parameters API route).  JavaScript optional values are `Option`,
JavaScript string truthiness (`""` is falsy) and number truthiness
(`0` is falsy) are modelled explicitly, and JS `Date` values are
modelled as milliseconds since the Unix epoch (`Int`), assuming a UTC
server environment.
-/

namespace AIChat

/-- Trip type enum: `"return" | "oneway" | "multicity"` (`TripType` in
`search-parameters`).  `ret` stands for the literal `"return"`. -/
inductive TripType where
  | ret
  | oneway
  | multicity
deriving DecidableEq, Repr

/-- Cabin class enum `["Y", "S", "C", "F"]`. -/
inductive CabinClass where
  | Y
  | S
  | C
  | F
deriving DecidableEq, Repr

/-- JS truthiness of an optional string: `undefined` and `""` are falsy. -/
def truthyStr (o : Option String) : Bool :=
  match o with
  | some s => s ≠ ""
  | none => false

/-- JS truthiness of an optional number: `undefined` and `0` are falsy. -/
def truthyNum (o : Option Int) : Bool :=
  match o with
  | some n => n ≠ 0
  | none => false

/-- JS `a || b` on optional strings: `a` wins when truthy, else `b`. -/
def jsOrStr (a b : Option String) : Option String :=
  match a with
  | some s => if s = "" then b else some s
  | none => b

/-- JS `a || b` on optional numbers: `a` wins when truthy (non-zero), else `b`. -/
def jsOrNum (a b : Option Int) : Option Int :=
  match a with
  | some n => if n = 0 then b else some n
  | none => b

/-- JS `a || b || d` on optional numbers with a numeric literal default. -/
def jsOrNumD (a b : Option Int) (d : Int) : Int :=
  match jsOrNum a b with
  | some n => if n = 0 then d else n
  | none => d

/-- One multi-city segment (`MultiCitySegmentSchema`).  `sequence_order`
is a JS number (`z.number().int().positive()`), dates are the raw
`YYYY-MM-DD` strings. -/
structure MultiCitySegment where
  search_params_id : Option String := none
  sequence_order : Int
  origin_code : String
  origin_name : String
  destination_code : String
  destination_name : String
  departure_date : String
deriving DecidableEq, Repr

/-- Embeds `[...segments].sort((a, b) => a.sequence_order - b.sequence_order)`:
a stable ascending sort by `sequence_order`. -/
def sortSegments (segments : List MultiCitySegment) : List MultiCitySegment :=
  segments.mergeSort (fun a b => a.sequence_order ≤ b.sequence_order)

/-- The `SearchParameters` record (base object of
`SearchParametersObject`); fields that are `.optional()` in the zod
schema are `Option`, fields with a `.default(...)` are plain values. -/
structure SearchParameters where
  conversation_id : String := ""
  origin_code : Option String := none
  origin_name : Option String := none
  destination_code : Option String := none
  destination_name : Option String := none
  departure_date : Option String := none
  return_date : Option String := none
  trip_type : TripType := .ret
  adults : Int := 1
  children : Int := 0
  infants : Int := 0
  cabin_class : Option CabinClass := none
  multi_city_segments : Option (List MultiCitySegment) := none
  is_complete : Bool := false
deriving DecidableEq, Repr

/-- The per-turn extraction result (`FlightInfo`): every field optional. -/
structure FlightInfo where
  origin_code : Option String := none
  origin_name : Option String := none
  destination_code : Option String := none
  destination_name : Option String := none
  departure_date : Option String := none
  return_date : Option String := none
  trip_type : Option TripType := none
  adults : Option Int := none
  children : Option Int := none
  infants : Option Int := none
  cabin_class : Option CabinClass := none
  multi_city_segments : Option (List MultiCitySegment) := none
deriving DecidableEq, Repr

/-- The entirely empty extraction object `{}`. -/
def emptyFlightInfo : FlightInfo := {}

/-- Embeds `UpdateSearchParametersInput`
(`SearchParametersObject.omit({id, conversation_id}).partial()`):
every remaining field optional. -/
structure UpdateSearchParametersInput where
  origin_code : Option String := none
  origin_name : Option String := none
  destination_code : Option String := none
  destination_name : Option String := none
  departure_date : Option String := none
  return_date : Option String := none
  trip_type : Option TripType := none
  adults : Option Int := none
  children : Option Int := none
  infants : Option Int := none
  cabin_class : Option CabinClass := none
  multi_city_segments : Option (List MultiCitySegment) := none
  is_complete : Option Bool := none
deriving DecidableEq, Repr

/-- Embeds `isSearchComplete` (search-parameters model).  `!!params.x` is string
truthiness; for multicity, `!!params.multi_city_segments &&
params.multi_city_segments.length >= 2`. -/
def isSearchComplete (params : SearchParameters) : Bool :=
  let hasOrigin := truthyStr params.origin_code
  let hasDestination := truthyStr params.destination_code
  let hasDepartureDate := truthyStr params.departure_date
  let hasReturnDate := params.trip_type != .ret || truthyStr params.return_date
  let hasValidSegments :=
    params.trip_type != .multicity ||
      (match params.multi_city_segments with
       | some segs => segs.length ≥ 2
       | none => false)
  hasOrigin && hasDestination && hasDepartureDate && hasReturnDate && hasValidSegments

/-- Embeds `getMissingFields` (search-parameters model): pushes the missing
field names in source order. -/
def getMissingFields (params : SearchParameters) : List String :=
  (if !truthyStr params.origin_code then ["origin_code"] else []) ++
  (if !truthyStr params.destination_code then ["destination_code"] else []) ++
  (if !truthyStr params.departure_date then ["departure_date"] else []) ++
  (if params.trip_type = .ret && !truthyStr params.return_date then ["return_date"] else []) ++
  (if params.trip_type = .multicity &&
      !(match params.multi_city_segments with
        | some segs => segs.length ≥ 2
        | none => false)
   then ["multi_city_segments"] else [])

/-- Embeds `ChatEngine.mergeParameters(extracted, current)`: field-by-field JS
`||` merge; passenger counts get literal defaults; `is_complete` is set
to `false`; the returned object literal has no `multi_city_segments`
key. -/
def mergeParameters (extracted : FlightInfo) (current : Option SearchParameters) :
    UpdateSearchParametersInput :=
  { origin_code := jsOrStr extracted.origin_code (current.bind (·.origin_code))
    origin_name := jsOrStr extracted.origin_name (current.bind (·.origin_name))
    destination_code := jsOrStr extracted.destination_code (current.bind (·.destination_code))
    destination_name := jsOrStr extracted.destination_name (current.bind (·.destination_name))
    departure_date := jsOrStr extracted.departure_date (current.bind (·.departure_date))
    return_date := jsOrStr extracted.return_date (current.bind (·.return_date))
    trip_type := extracted.trip_type.orElse (fun _ => current.map (·.trip_type))
    adults := some (jsOrNumD extracted.adults (current.map (·.adults)) 1)
    children := some (jsOrNumD extracted.children (current.map (·.children)) 0)
    infants := some (jsOrNumD extracted.infants (current.map (·.infants)) 0)
    cabin_class := extracted.cabin_class.orElse (fun _ => current.bind (·.cabin_class))
    multi_city_segments := none
    is_complete := some false }

/-- Conversation progression phases (`next_step`). -/
inductive NextStep where
  | collecting
  | confirming
  | complete
deriving DecidableEq, Repr

/-- Embeds `ChatEngine.determineNextStep(extractedParams?, currentParams?)`:
returns `collecting` when the extraction object is absent; for
multicity, only the EXTRACTED segment list is consulted. -/
def determineNextStep (extractedParams : Option FlightInfo)
    (currentParams : Option SearchParameters) : NextStep :=
  match extractedParams with
  | none => .collecting
  | some e =>
    let hasOrigin := truthyStr e.origin_code || truthyStr (currentParams.bind (·.origin_code))
    let hasDestination :=
      truthyStr e.destination_code || truthyStr (currentParams.bind (·.destination_code))
    let hasDeparture :=
      truthyStr e.departure_date || truthyStr (currentParams.bind (·.departure_date))
    let tripType := (e.trip_type.orElse (fun _ => currentParams.map (·.trip_type))).getD .ret
    let hasReturn := tripType != .ret ||
      truthyStr e.return_date || truthyStr (currentParams.bind (·.return_date))
    let hasMultiCity := tripType != .multicity ||
      (match e.multi_city_segments with
       | some segs => segs.length ≥ 2
       | none => false)
    if hasOrigin && hasDestination && hasDeparture && hasReturn && hasMultiCity then
      .confirming
    else
      .collecting

/-- Modelled from the spec: the persistence collaborator
`updateSearchParameters(conversationId, partial)` applies a partial
update to the stored record — a field carried by the partial overwrites
the stored field, an absent (`undefined`) field leaves it unchanged.
The persistence layer itself is out of the repository (external
collaborator per the spec), only its PATCH-style contract is modelled. -/
def applyUpdate (c : SearchParameters) (u : UpdateSearchParametersInput) : SearchParameters :=
  { conversation_id := c.conversation_id
    origin_code := match u.origin_code with | some s => some s | none => c.origin_code
    origin_name := match u.origin_name with | some s => some s | none => c.origin_name
    destination_code := match u.destination_code with | some s => some s | none => c.destination_code
    destination_name := match u.destination_name with | some s => some s | none => c.destination_name
    departure_date := match u.departure_date with | some s => some s | none => c.departure_date
    return_date := match u.return_date with | some s => some s | none => c.return_date
    trip_type := u.trip_type.getD c.trip_type
    adults := u.adults.getD c.adults
    children := u.children.getD c.children
    infants := u.infants.getD c.infants
    cabin_class := match u.cabin_class with | some x => some x | none => c.cabin_class
    multi_city_segments :=
      match u.multi_city_segments with | some l => some l | none => c.multi_city_segments
    is_complete := u.is_complete.getD c.is_complete }

/-- The parameter record a merge turn produces: the merge output applied
to the stored record (or to the empty record created at conversation
start when none is stored). -/
def mergedParams (extracted : FlightInfo) (current : Option SearchParameters) :
    SearchParameters :=
  applyUpdate (current.getD {}) (mergeParameters extracted current)

/-! ### JS `Date` model

`new Date("YYYY-MM-DD")` parses a well-formed ISO calendar date as UTC
midnight and yields an Invalid Date (`NaN` time value) for a malformed
or out-of-range one; comparisons against `NaN` are `false`.  Time
values are milliseconds since the Unix epoch.  A UTC server environment
is assumed, so `setDate(getDate() + 14)` adds exactly fourteen days. -/

/-- Decimal digit test for a character of the date string. -/
def isDigitCh (c : Char) : Bool := '0' ≤ c && c ≤ '9'

/-- Numeric value of a decimal digit character. -/
def digitVal (c : Char) : Nat := c.toNat - '0'.toNat

/-- The regex `^\d{4}-\d{2}-\d{2}$`: accept exactly ten characters
`dddd-dd-dd` and split into year, month, day numerals. -/
def parseYMD (s : String) : Option (Nat × Nat × Nat) :=
  match s.data with
  | [y1, y2, y3, y4, h1, m1, m2, h2, d1, d2] =>
    if isDigitCh y1 && isDigitCh y2 && isDigitCh y3 && isDigitCh y4 &&
       h1 = '-' && isDigitCh m1 && isDigitCh m2 &&
       h2 = '-' && isDigitCh d1 && isDigitCh d2 then
      some (digitVal y1 * 1000 + digitVal y2 * 100 + digitVal y3 * 10 + digitVal y4,
            digitVal m1 * 10 + digitVal m2,
            digitVal d1 * 10 + digitVal d2)
    else
      none
  | _ => none

/-- Gregorian leap year. -/
def isLeap (y : Nat) : Bool := (y % 4 = 0 && y % 100 ≠ 0) || y % 400 = 0

/-- Number of days of month `m` of year `y`. -/
def daysInMonth (y m : Nat) : Nat :=
  if m = 2 then (if isLeap y then 29 else 28)
  else if m = 4 || m = 6 || m = 9 || m = 11 then 30
  else 31

/-- The numerals name an existing calendar date (ISO parsing rejects
out-of-range month or day: `new Date("2026-02-30")` is invalid). -/
def validYMD (y m d : Nat) : Bool :=
  1 ≤ m && m ≤ 12 && 1 ≤ d && d ≤ daysInMonth y m

/-- Days from 1970-01-01 to the civil date `y-m-d` (standard
era/year-of-era computation, matching ECMAScript `MakeDay`). -/
def daysFromCivil (y m d : Nat) : Int :=
  let ys : Int := if m ≤ 2 then (y : Int) - 1 else (y : Int)
  let era : Int := (if 0 ≤ ys then ys else ys - 399) / 400
  let yoe : Int := ys - era * 400
  let mp : Int := ((m : Int) + 9) % 12
  let doy : Int := (153 * mp + 2) / 5 + (d : Int) - 1
  let doe : Int := yoe * 365 + yoe / 4 - yoe / 100 + doy
  era * 146097 + doe - 719468

/-- UTC-midnight time value of the civil date, in milliseconds. -/
def dateMs (y m d : Nat) : Int := daysFromCivil y m d * 86400000

/-- Embeds `new Date(s)` for a date string: `some` time value when the string
is a well-formed existing ISO date, `none` (Invalid Date) otherwise. -/
def parseDateMs (s : String) : Option Int :=
  match parseYMD s with
  | some (y, m, d) => if validYMD y m d then some (dateMs y m d) else none
  | none => none

/-- JS `dateA <= dateB` on two parsed dates: any `NaN` operand makes the
comparison `false`. -/
def jsDateLe (a b : String) : Bool :=
  match parseDateMs a, parseDateMs b with
  | some x, some y => x ≤ y
  | _, _ => false

/-- The `FutureDate` zod schema: the regex must match, then the refine
`parsedDate >= minDate` with `minDate = now + 14 days` must hold (an
invalid parsed date makes the comparison false). `nowMs` is the
evaluation instant `new Date()` in epoch milliseconds. -/
def futureDateAccept (s : String) (nowMs : Int) : Bool :=
  match parseYMD s with
  | none => false
  | some (y, m, d) =>
    if validYMD y m d then dateMs y m d ≥ nowMs + 14 * 86400000 else false

/-! ### Segment integrity checkers (multi-city-segment model) -/

/-- Error message template of `validateSegmentSequence`. -/
def seqErrorMsg (expected : Nat) (got : Int) : String :=
  "Invalid segment sequence. Expected sequence order " ++ toString expected ++
    ", got " ++ toString got

/-- Loop body of `validateSegmentSequence`: position `i` (0-based) must
carry `sequence_order = i + 1`. -/
def checkSeqAux (i : Nat) : List MultiCitySegment → Except String Unit
  | [] => .ok ()
  | s :: rest =>
    if s.sequence_order ≠ (i : Int) + 1 then
      .error (seqErrorMsg (i + 1) s.sequence_order)
    else
      checkSeqAux (i + 1) rest

/-- Embeds `validateSegmentSequence`: sort by `sequence_order`, require the
sorted orders to be exactly `1..N`, failing at the first violation. -/
def validateSegmentSequence (segments : List MultiCitySegment) : Except String Unit :=
  checkSeqAux 0 (sortSegments segments)

/-- Error message template of `validateSegmentDates` for loop index `i`. -/
def dateErrorMsg (i : Nat) : String :=
  "Multi-city segment dates must be in chronological order. Segment " ++
    toString (i + 1) ++ " date must be after segment " ++ toString i ++ " date"

/-- Loop body of `validateSegmentDates`: at loop index `i` compare
`sorted[i-1]` (head) against `sorted[i]`. -/
def checkDatesAux (i : Nat) : List MultiCitySegment → Except String Unit
  | a :: b :: rest =>
    if jsDateLe b.departure_date a.departure_date then
      .error (dateErrorMsg i)
    else
      checkDatesAux (i + 1) (b :: rest)
  | _ => .ok ()

/-- Embeds `validateSegmentDates`: sort by `sequence_order`, require each
segment's `new Date(departure_date)` to be strictly after the previous
segment's. -/
def validateSegmentDates (segments : List MultiCitySegment) : Except String Unit :=
  checkDatesAux 1 (sortSegments segments)

/-- Error message template of `validateSegmentConnections` for loop
index `i` (the source interpolates `i` for both segment numbers). -/
def connErrorMsg (i : Nat) (currentOrigin prevDestination : String) : String :=
  "Multi-city segments must connect. Segment " ++ toString i ++ " origin (" ++
    currentOrigin ++ ") must match segment " ++ toString i ++ " destination (" ++
    prevDestination ++ ")"

/-- Loop body of `validateSegmentConnections`. -/
def checkConnAux (i : Nat) : List MultiCitySegment → Except String Unit
  | a :: b :: rest =>
    if b.origin_code ≠ a.destination_code then
      .error (connErrorMsg i b.origin_code a.destination_code)
    else
      checkConnAux (i + 1) (b :: rest)
  | _ => .ok ()

/-- Embeds `validateSegmentConnections`: sort by `sequence_order`, require each
segment's origin code to equal the previous segment's destination code. -/
def validateSegmentConnections (segments : List MultiCitySegment) : Except String Unit :=
  checkConnAux 1 (sortSegments segments)

/-- Raw segment entry of a PUT request body (`body.multi_city_segments`
items; names may be absent in the raw payload). -/
structure SegmentInput where
  origin_code : String
  origin_name : String := ""
  destination_code : String
  destination_name : String := ""
  departure_date : String
  sequence_order : Int := 0
deriving DecidableEq, Repr

/-- The segment-replacement path of the parameters PUT route:
`body.multi_city_segments.map((seg, index) => ({...
sequence_order: index + 1, ...}))` — the inserted rows take their
`sequence_order` from list position, 1-based. -/
def replaceSegments (ownerId : String) (body : List SegmentInput) : List MultiCitySegment :=
  body.mapIdx (fun index seg =>
    { search_params_id := some ownerId
      sequence_order := (index : Int) + 1
      origin_code := seg.origin_code
      origin_name := seg.origin_name
      destination_code := seg.destination_code
      destination_name := seg.destination_name
      departure_date := seg.departure_date })

/-- Number of associated segments of a record (`undefined` counts 0). -/
def segCount (p : SearchParameters) : Nat :=
  match p.multi_city_segments with
  | some segs => segs.length
  | none => 0

/-! ### Theorems -/

/-- C1: `isSearchComplete(params)` is true exactly when origin,
destination and departure date are present (truthy), return trips
additionally carry a return date, and multicity trips carry at least
two associated segments; in particular a return record without a return
date and a multicity record with fewer than two segments are incomplete
regardless of the other fields. -/
theorem isSearchComplete_characterization (p : SearchParameters) :
    (isSearchComplete p = true ↔
      (truthyStr p.origin_code = true ∧ truthyStr p.destination_code = true ∧
        truthyStr p.departure_date = true ∧
        (p.trip_type = .ret → truthyStr p.return_date = true) ∧
        (p.trip_type = .multicity → 2 ≤ segCount p))) ∧
    (p.trip_type = .ret ∧ p.return_date = none → isSearchComplete p = false) ∧
    (p.trip_type = .multicity ∧ segCount p < 2 → isSearchComplete p = false) := by
  rcases p with ⟨cid, oc, onm, dc, dnm, dd, rd, tt, ad, ch, inf, cc, segs, ic⟩
  cases tt <;> cases segs <;>
    simp [isSearchComplete, segCount, truthyStr] <;>
    aesop

/-- C4: `getMissingFields(p)` is empty exactly when `isSearchComplete(p)`
is true. -/
theorem getMissingFields_nil_iff_complete (p : SearchParameters) :
    getMissingFields p = [] ↔ isSearchComplete p = true := by
  rcases p with ⟨cid, oc, onm, dc, dnm, dd, rd, tt, ad, ch, inf, cc, segs, ic⟩
  cases tt <;> cases segs <;>
    simp [isSearchComplete, getMissingFields, truthyStr] <;>
    aesop

/-- C3: merging the empty extraction object into a stored record and
applying the resulting partial update reproduces the record except that
`is_complete` is forced to `false`; and every merge result whatsoever
carries `is_complete = false`.  The hypothesis `c.adults ≠ 0` is the
zod constraint `adults: min(1)` of the stored record. -/
theorem mergeParameters_empty_identity (c : SearchParameters) (h : c.adults ≠ 0) :
    applyUpdate c (mergeParameters emptyFlightInfo (some c)) =
      { c with is_complete := false } ∧
    ∀ (e : FlightInfo) (cur : Option SearchParameters),
      (mergeParameters e cur).is_complete = some false := by
  constructor
  · rcases c with ⟨cid, oc, onm, dc, dnm, dd, rd, tt, ad, ch, inf, cc, segs, ic⟩
    simp only [ne_eq] at h
    cases oc <;> cases onm <;> cases dc <;> cases dnm <;> cases dd <;> cases rd <;> cases cc <;>
      simp_all [applyUpdate, mergeParameters, emptyFlightInfo, jsOrStr, jsOrNum, jsOrNumD,
        Option.orElse]
  · intro e cur
    rfl

/-- C3 witness. -/
theorem mergeParameters_empty_identity_witness :
    ({ origin_code := some "SYD", adults := 2, is_complete := true } : SearchParameters).adults ≠ 0 ∧
    (applyUpdate { origin_code := some "SYD", adults := 2, is_complete := true }
        (mergeParameters emptyFlightInfo
          (some { origin_code := some "SYD", adults := 2, is_complete := true })) =
      { origin_code := some "SYD", adults := 2, is_complete := false } ∧
    ∀ (e : FlightInfo) (cur : Option SearchParameters),
      (mergeParameters e cur).is_complete = some false) :=
  ⟨by decide,
   mergeParameters_empty_identity
     { origin_code := some "SYD", adults := 2, is_complete := true } (by decide)⟩

theorem jsOrStr_eq_ite (a b : Option String) :
    jsOrStr a b = if truthyStr a then a else b := by
  cases a <;> simp [jsOrStr, truthyStr]

theorem jsOrNum_falsy {a : Option Int} (h : truthyNum a = false) (b : Option Int) :
    jsOrNum a b = b := by
  cases a <;> simp_all [jsOrNum, truthyNum]

theorem jsOrNumD_truthy {a : Option Int} {n : Int} (b : Option Int) (d : Int)
    (ha : a = some n) (hn : n ≠ 0) : jsOrNumD a b d = n := by
  subst ha
  simp [jsOrNumD, jsOrNum, hn]

/-- C2: the field-level merge rule: an extracted non-empty string (or a
present enum, or a non-zero number) wins, otherwise the stored value is
kept, otherwise the default applies (`adults = 1`, `children = 0`,
`infants = 0`; strings stay absent); consequently an extracted `0`
never overrides a stored passenger count.  The hypothesis is the zod
constraint `adults: min(1)` of the stored record. -/
theorem mergeParameters_field_rule (e : FlightInfo) (current : Option SearchParameters)
    (hadults : ∀ c, current = some c → c.adults ≠ 0) :
    ((mergeParameters e current).origin_code =
      if truthyStr e.origin_code then e.origin_code else current.bind (·.origin_code)) ∧
    ((mergeParameters e current).origin_name =
      if truthyStr e.origin_name then e.origin_name else current.bind (·.origin_name)) ∧
    ((mergeParameters e current).destination_code =
      if truthyStr e.destination_code then e.destination_code
      else current.bind (·.destination_code)) ∧
    ((mergeParameters e current).destination_name =
      if truthyStr e.destination_name then e.destination_name
      else current.bind (·.destination_name)) ∧
    ((mergeParameters e current).departure_date =
      if truthyStr e.departure_date then e.departure_date
      else current.bind (·.departure_date)) ∧
    ((mergeParameters e current).return_date =
      if truthyStr e.return_date then e.return_date else current.bind (·.return_date)) ∧
    ((mergeParameters e current).trip_type =
      if e.trip_type.isSome then e.trip_type else current.map (·.trip_type)) ∧
    ((mergeParameters e current).cabin_class =
      if e.cabin_class.isSome then e.cabin_class else current.bind (·.cabin_class)) ∧
    (∀ n : Int, e.adults = some n → n ≠ 0 → (mergeParameters e current).adults = some n) ∧
    (truthyNum e.adults = false →
      (mergeParameters e current).adults = some ((current.map (·.adults)).getD 1)) ∧
    (∀ n : Int, e.children = some n → n ≠ 0 → (mergeParameters e current).children = some n) ∧
    (truthyNum e.children = false →
      (mergeParameters e current).children = some ((current.map (·.children)).getD 0)) ∧
    (∀ n : Int, e.infants = some n → n ≠ 0 → (mergeParameters e current).infants = some n) ∧
    (truthyNum e.infants = false →
      (mergeParameters e current).infants = some ((current.map (·.infants)).getD 0)) ∧
    (∀ c, current = some c →
      (e.adults = some 0 → (mergeParameters e current).adults = some c.adults) ∧
      (e.children = some 0 → (mergeParameters e current).children = some c.children) ∧
      (e.infants = some 0 → (mergeParameters e current).infants = some c.infants)) := by
  refine ⟨?_, ?_, ?_, ?_, ?_, ?_, ?_, ?_, ?_, ?_, ?_, ?_, ?_, ?_, ?_⟩
  · simp [mergeParameters, jsOrStr_eq_ite]
  · simp [mergeParameters, jsOrStr_eq_ite]
  · simp [mergeParameters, jsOrStr_eq_ite]
  · simp [mergeParameters, jsOrStr_eq_ite]
  · simp [mergeParameters, jsOrStr_eq_ite]
  · simp [mergeParameters, jsOrStr_eq_ite]
  · cases he : e.trip_type <;> simp [mergeParameters, Option.orElse, he]
  · cases he : e.cabin_class <;> simp [mergeParameters, Option.orElse, he]
  · intro n hn hn0
    simp [mergeParameters, jsOrNumD_truthy _ _ hn hn0]
  · intro hf
    rcases current with _ | c
    · simp [mergeParameters, jsOrNumD, jsOrNum_falsy hf]
    · have hc := hadults c rfl
      simp [mergeParameters, jsOrNumD, jsOrNum_falsy hf, hc]
  · intro n hn hn0
    simp [mergeParameters, jsOrNumD_truthy _ _ hn hn0]
  · intro hf
    rcases current with _ | c
    · simp [mergeParameters, jsOrNumD, jsOrNum_falsy hf]
    · by_cases hc : c.children = 0 <;>
        simp [mergeParameters, jsOrNumD, jsOrNum_falsy hf, hc]
  · intro n hn hn0
    simp [mergeParameters, jsOrNumD_truthy _ _ hn hn0]
  · intro hf
    rcases current with _ | c
    · simp [mergeParameters, jsOrNumD, jsOrNum_falsy hf]
    · by_cases hc : c.infants = 0 <;>
        simp [mergeParameters, jsOrNumD, jsOrNum_falsy hf, hc]
  · rintro c rfl
    have hc := hadults c rfl
    refine ⟨?_, ?_, ?_⟩
    · intro h0
      simp [mergeParameters, jsOrNumD, jsOrNum_falsy (a := e.adults) (by simp [truthyNum, h0]),
        hc]
    · intro h0
      by_cases hch : c.children = 0 <;>
        simp [mergeParameters, jsOrNumD,
          jsOrNum_falsy (a := e.children) (by simp [truthyNum, h0]), hch]
    · intro h0
      by_cases hin : c.infants = 0 <;>
        simp [mergeParameters, jsOrNumD,
          jsOrNum_falsy (a := e.infants) (by simp [truthyNum, h0]), hin]

/-- Concrete extraction for the C2 witness: it carries `children = 0`. -/
def fieldRuleE : FlightInfo := { origin_code := some "MEL", children := some 0 }

/-- Concrete stored record for the C2 witness. -/
def fieldRuleC : SearchParameters := { origin_code := some "SYD", adults := 2, children := 5 }

/-- C2 witness: the stored record satisfies the adults constraint, and
the merge keeps the stored `children = 5` against the extracted `0`. -/
theorem mergeParameters_field_rule_witness :
    (∀ c, (some fieldRuleC : Option SearchParameters) = some c → c.adults ≠ 0) ∧
    (mergeParameters fieldRuleE (some fieldRuleC)).children = some 5 := by
  have hyp : ∀ c, (some fieldRuleC : Option SearchParameters) = some c → c.adults ≠ 0 := by
    rintro c hc
    cases hc
    decide
  refine ⟨hyp, ?_⟩
  have h := (mergeParameters_field_rule fieldRuleE (some fieldRuleC) hyp).2.2.2.2.2.2.2.2.2.2.2.1
  have hf : truthyNum fieldRuleE.children = false := by decide
  exact (h hf).trans (by decide)

theorem jsOrStr_eq_none {a b : Option String} (h : jsOrStr a b = none) : b = none := by
  cases a <;> simp [jsOrStr] at h <;> try exact h
  · split at h <;> simp_all

theorem truthyStr_jsOrStr (a b : Option String) :
    truthyStr (jsOrStr a b) = (truthyStr a || truthyStr b) := by
  cases a <;> simp [jsOrStr, truthyStr] <;> split_ifs <;> simp_all [truthyStr]

theorem mergedParams_origin_code (e : FlightInfo) (cur : Option SearchParameters) :
    (mergedParams e cur).origin_code = jsOrStr e.origin_code (cur.bind (·.origin_code)) := by
  cases h : jsOrStr e.origin_code (cur.bind (·.origin_code)) <;>
    rcases cur with _ | c <;>
    simp_all [mergedParams, applyUpdate, mergeParameters] <;>
    exact jsOrStr_eq_none h

theorem mergedParams_destination_code (e : FlightInfo) (cur : Option SearchParameters) :
    (mergedParams e cur).destination_code =
      jsOrStr e.destination_code (cur.bind (·.destination_code)) := by
  cases h : jsOrStr e.destination_code (cur.bind (·.destination_code)) <;>
    rcases cur with _ | c <;>
    simp_all [mergedParams, applyUpdate, mergeParameters] <;>
    exact jsOrStr_eq_none h

theorem mergedParams_departure_date (e : FlightInfo) (cur : Option SearchParameters) :
    (mergedParams e cur).departure_date =
      jsOrStr e.departure_date (cur.bind (·.departure_date)) := by
  cases h : jsOrStr e.departure_date (cur.bind (·.departure_date)) <;>
    rcases cur with _ | c <;>
    simp_all [mergedParams, applyUpdate, mergeParameters] <;>
    exact jsOrStr_eq_none h

theorem mergedParams_return_date (e : FlightInfo) (cur : Option SearchParameters) :
    (mergedParams e cur).return_date =
      jsOrStr e.return_date (cur.bind (·.return_date)) := by
  cases h : jsOrStr e.return_date (cur.bind (·.return_date)) <;>
    rcases cur with _ | c <;>
    simp_all [mergedParams, applyUpdate, mergeParameters] <;>
    exact jsOrStr_eq_none h

theorem mergedParams_trip_type (e : FlightInfo) (cur : Option SearchParameters) :
    (mergedParams e cur).trip_type =
      ((e.trip_type.orElse (fun _ => cur.map (·.trip_type))).getD .ret) := by
  cases h : e.trip_type <;> rcases cur with _ | c <;>
    simp_all [mergedParams, applyUpdate, mergeParameters, Option.orElse]

theorem mergedParams_segments (e : FlightInfo) (cur : Option SearchParameters) :
    (mergedParams e cur).multi_city_segments =
      (cur.getD {}).multi_city_segments := by
  simp [mergedParams, applyUpdate, mergeParameters]

/-- First leg SYD→NRT of the concrete multicity itinerary. -/
def segSydNrt : MultiCitySegment :=
  { sequence_order := 1
    origin_code := "SYD"
    origin_name := "Sydney"
    destination_code := "NRT"
    destination_name := "Tokyo Narita"
    departure_date := "2026-11-01" }

/-- Second leg NRT→LAX of the concrete multicity itinerary. -/
def segNrtLax : MultiCitySegment :=
  { sequence_order := 2
    origin_code := "NRT"
    origin_name := "Tokyo Narita"
    destination_code := "LAX"
    destination_name := "Los Angeles"
    departure_date := "2026-11-10" }

/-- A stored record that is already complete for trip type multicity. -/
def storedMulticity : SearchParameters :=
  { conversation_id := "conv-1"
    origin_code := some "SYD"
    origin_name := some "Sydney"
    destination_code := some "LAX"
    destination_name := some "Los Angeles"
    departure_date := some "2026-11-01"
    trip_type := .multicity
    multi_city_segments := some [segSydNrt, segNrtLax] }

/-- C5 counterexample: with an entirely empty extraction object and a
stored multicity record that is already complete, the merged state
satisfies `isSearchComplete`, yet `determineNextStep` returns
`collecting`, not `confirming` — the multicity arm only consults the
extraction's own segment list. -/
theorem determineNextStep_complete_not_confirming :
    isSearchComplete (mergedParams emptyFlightInfo (some storedMulticity)) = true ∧
    determineNextStep (some emptyFlightInfo) (some storedMulticity) = .collecting := by
  constructor <;> rfl

/-- C5 amended: with a present extraction object, the decider returns
`confirming` exactly when the merged scalar state is complete AND, for
trip type multicity, the extraction itself carries at least two
segments (the stored segment list is not consulted); it never returns
`complete`; and an absent extraction object always yields
`collecting`. -/
theorem determineNextStep_confirming_iff (e : FlightInfo) (cur : Option SearchParameters) :
    (determineNextStep (some e) cur = .confirming ↔
      (truthyStr (mergedParams e cur).origin_code = true ∧
       truthyStr (mergedParams e cur).destination_code = true ∧
       truthyStr (mergedParams e cur).departure_date = true ∧
       ((mergedParams e cur).trip_type = .ret →
         truthyStr (mergedParams e cur).return_date = true) ∧
       ((mergedParams e cur).trip_type = .multicity →
         ∃ segs, e.multi_city_segments = some segs ∧ 2 ≤ segs.length))) ∧
    determineNextStep (some e) cur ≠ .complete ∧
    determineNextStep none cur = .collecting := by
  refine ⟨?_, ?_, rfl⟩
  · rw [mergedParams_origin_code, mergedParams_destination_code, mergedParams_departure_date,
      mergedParams_return_date, mergedParams_trip_type,
      truthyStr_jsOrStr, truthyStr_jsOrStr, truthyStr_jsOrStr, truthyStr_jsOrStr]
    simp only [determineNextStep]
    split
    next h =>
      simp only [Bool.and_eq_true, Bool.or_eq_true, bne_iff_ne, ne_eq] at h
      obtain ⟨⟨⟨⟨h1, h2⟩, h3⟩, h4⟩, h5⟩ := h
      simp only [true_iff]
      refine ⟨by simpa using h1, by simpa using h2, by simpa using h3, ?_, ?_⟩
      · intro ht
        rcases h4 with (h4 | h4) | h4
        · exact absurd ht h4
        · simp [h4]
        · simp [h4]
      · intro ht
        rcases h5 with h5 | h5
        · exact absurd ht h5
        · cases hs : e.multi_city_segments with
          | none => rw [hs] at h5; simp at h5
          | some segs =>
            rw [hs] at h5
            exact ⟨segs, rfl, by simpa using h5⟩
    next h =>
      constructor
      · intro hc
        cases hc
      · rintro ⟨h1, h2, h3, h4, h5⟩
        exfalso
        apply h
        simp only [Bool.and_eq_true, Bool.or_eq_true, bne_iff_ne, ne_eq]
        refine ⟨⟨⟨⟨by simpa using h1, by simpa using h2⟩, by simpa using h3⟩, ?_⟩, ?_⟩
        · by_cases ht : (e.trip_type.orElse fun _ => cur.map (·.trip_type)).getD .ret = .ret
          · rcases (by simpa using h4 ht : truthyStr e.return_date = true ∨
              truthyStr (cur.bind (·.return_date)) = true) with hr | hr
            · exact .inl (.inr hr)
            · exact .inr hr
          · exact .inl (.inl ht)
        · by_cases ht :
            (e.trip_type.orElse fun _ => cur.map (·.trip_type)).getD .ret = .multicity
          · obtain ⟨segs, hs, hl⟩ := h5 ht
            refine .inr ?_
            rw [hs]
            simpa using hl
          · exact .inl ht
  · simp only [determineNextStep]
    split <;> simp

theorem replaceSegments_orders (owner : String) (body : List SegmentInput) :
    (replaceSegments owner body).map (·.sequence_order) =
      (List.range' 1 body.length).map Int.ofNat := by
  induction body using List.list_reverse_induction with
  | base => rfl
  | ind l e ih =>
    simp only [replaceSegments] at ih ⊢
    rw [List.mapIdx_append_one, List.map_append, ih, List.length_append, List.length_singleton,
      List.range'_concat, List.map_append]
    simp [Int.ofNat_eq_natCast]
    push_cast
    ring

/-- C10: a merge result never carries a `multi_city_segments` field, so
applying it to a stored record leaves the stored segment list
untouched; segments change only through the explicit replacement path
of the parameters PUT route, which reassigns `sequence_order` as
`1..N` by list position. -/
theorem mergeParameters_segments_frame (e : FlightInfo) (cur : Option SearchParameters) :
    (mergeParameters e cur).multi_city_segments = none ∧
    (∀ c : SearchParameters,
      (applyUpdate c (mergeParameters e cur)).multi_city_segments = c.multi_city_segments) ∧
    (∀ (owner : String) (body : List SegmentInput),
      (replaceSegments owner body).map (·.sequence_order) =
        (List.range' 1 body.length).map Int.ofNat) := by
  refine ⟨rfl, ?_, fun owner body => replaceSegments_orders owner body⟩
  intro c
  simp [applyUpdate, mergeParameters]

theorem checkSeqAux_ok_iff (i : Nat) (l : List MultiCitySegment) :
    checkSeqAux i l = .ok () ↔
      l.map (·.sequence_order) = (List.range' (i + 1) l.length).map Int.ofNat := by
  induction l generalizing i with
  | nil => simp [checkSeqAux]
  | cons s rest ih =>
    have hcast : (Int.ofNat (i + 1)) = (i : Int) + 1 := by
      simp [Int.ofNat_eq_natCast]
    simp only [checkSeqAux, List.length_cons, List.range'_succ, List.map_cons, List.cons.injEq]
    split
    next hne =>
      simp only [reduceCtorEq, false_iff, not_and]
      exact fun h1 _ => absurd (by rw [h1, hcast]) hne
    next heq =>
      rw [not_not] at heq
      rw [ih (i + 1)]
      constructor
      · intro h
        exact ⟨by rw [heq, hcast], h⟩
      · intro h
        exact h.2

theorem checkSeqAux_error_iff (i : Nat) (l : List MultiCitySegment) (msg : String) :
    checkSeqAux i l = .error msg ↔
      ∃ k s, l[k]? = some s ∧
        (l.take k).map (·.sequence_order) = (List.range' (i + 1) k).map Int.ofNat ∧
        s.sequence_order ≠ Int.ofNat (i + k + 1) ∧
        msg = seqErrorMsg (i + k + 1) s.sequence_order := by
  induction l generalizing i with
  | nil => simp [checkSeqAux]
  | cons s rest ih =>
    have hcast : ∀ n : Nat, (Int.ofNat (n + 1)) = (n : Int) + 1 := by
      intro n
      simp [Int.ofNat_eq_natCast]
    simp only [checkSeqAux]
    split
    next hne =>
      simp only [Except.error.injEq]
      constructor
      · intro h
        refine ⟨0, s, by simp, by simp, ?_, by simpa using h.symm⟩
        simpa [hcast] using hne
      · rintro ⟨k, s', hget, htake, hne', hmsg⟩
        cases k with
        | zero =>
          simp only [List.getElem?_cons_zero, Option.some.injEq] at hget
          subst hget
          simpa using hmsg.symm
        | succ j =>
          exfalso
          apply hne
          rw [List.take_succ_cons, List.map_cons, List.range'_succ, List.map_cons,
            List.cons.injEq] at htake
          rw [htake.1, hcast]
    next heq =>
      rw [not_not] at heq
      rw [ih (i + 1)]
      constructor
      · rintro ⟨k, s', hget, htake, hne', hmsg⟩
        have harith : i + 1 + k + 1 = i + (k + 1) + 1 := by omega
        refine ⟨k + 1, s', by simpa using hget, ?_, ?_, ?_⟩
        · rw [List.take_succ_cons, List.map_cons, List.range'_succ, List.map_cons,
            List.cons.injEq]
          exact ⟨by rw [heq, hcast], htake⟩
        · rw [← harith]
          exact hne'
        · rw [hmsg, harith]
      · rintro ⟨k, s', hget, htake, hne', hmsg⟩
        cases k with
        | zero =>
          exfalso
          simp only [List.getElem?_cons_zero, Option.some.injEq] at hget
          subst hget
          simp only [Nat.add_zero] at hne'
          exact hne' (by rw [heq, hcast])
        | succ j =>
          have harith : i + 1 + j + 1 = i + (j + 1) + 1 := by omega
          refine ⟨j, s', by simpa using hget, ?_, ?_, ?_⟩
          · rw [List.take_succ_cons, List.map_cons, List.range'_succ, List.map_cons,
              List.cons.injEq] at htake
            exact htake.2
          · rw [harith]
            exact hne'
          · rw [hmsg, harith]

/-- Third leg with a gap: `sequence_order = 4` instead of 3. -/
def segLaxSfo4 : MultiCitySegment :=
  { sequence_order := 4
    origin_code := "LAX"
    origin_name := "Los Angeles"
    destination_code := "SFO"
    destination_name := "San Francisco"
    departure_date := "2026-11-20" }

/-- C6: `validateSegmentSequence` succeeds exactly when the
`sequence_order` values, sorted, are precisely `1..N`; on failure the
error names the first violated expected position; in particular for
orders `{1,2,4}` it fails naming expected position 3 against the found
value 4. -/
theorem validateSegmentSequence_characterization :
    (∀ segs : List MultiCitySegment,
      (validateSegmentSequence segs = .ok () ↔
        (sortSegments segs).map (·.sequence_order) =
          (List.range' 1 segs.length).map Int.ofNat) ∧
      (∀ msg, validateSegmentSequence segs = .error msg →
        ∃ k s, (sortSegments segs)[k]? = some s ∧
          ((sortSegments segs).take k).map (·.sequence_order) =
            (List.range' 1 k).map Int.ofNat ∧
          s.sequence_order ≠ Int.ofNat (k + 1) ∧
          msg = seqErrorMsg (k + 1) s.sequence_order)) ∧
    validateSegmentSequence [segSydNrt, segNrtLax, segLaxSfo4] = .error (seqErrorMsg 3 4) := by
  constructor
  · intro segs
    constructor
    · rw [validateSegmentSequence, checkSeqAux_ok_iff]
      simp [sortSegments, List.length_mergeSort]
    · intro msg h
      rw [validateSegmentSequence, checkSeqAux_error_iff] at h
      obtain ⟨k, s, h1, h2, h3, h4⟩ := h
      exact ⟨k, s, h1, by simpa using h2, by simpa using h3, by simpa using h4⟩
  · have hs : sortSegments [segSydNrt, segNrtLax, segLaxSfo4] =
        [segSydNrt, segNrtLax, segLaxSfo4] := List.mergeSort_of_sorted (by decide)
    rw [validateSegmentSequence, hs]
    rfl

theorem checkDatesAux_ok_iff (i : Nat) (l : List MultiCitySegment) :
    checkDatesAux i l = .ok () ↔
      l.Chain' (fun a b => jsDateLe b.departure_date a.departure_date = false) := by
  induction l generalizing i with
  | nil => simp [checkDatesAux]
  | cons a rest ih =>
    cases rest with
    | nil => simp [checkDatesAux]
    | cons b rest2 =>
      simp only [checkDatesAux, List.chain'_cons]
      split
      next h => simp [h]
      next h =>
        rw [ih (i + 1)]
        simp only [Bool.not_eq_true] at h
        simp [h]

theorem checkDates_chain_congr (l : List MultiCitySegment)
    (h : ∀ s ∈ l, (parseDateMs s.departure_date).isSome = true) :
    (l.Chain' (fun a b => jsDateLe b.departure_date a.departure_date = false) ↔
      l.Chain' (fun a b =>
        (parseDateMs a.departure_date).getD 0 < (parseDateMs b.departure_date).getD 0)) := by
  induction l with
  | nil => simp
  | cons a rest ih =>
    cases rest with
    | nil => simp
    | cons b rest2 =>
      simp only [List.chain'_cons]
      have ha := h a (by simp)
      have hb := h b (by simp)
      have ih' := ih (fun s hs => h s (List.mem_cons_of_mem a hs))
      rw [ih']
      obtain ⟨x, hx⟩ := Option.isSome_iff_exists.mp ha
      obtain ⟨y, hy⟩ := Option.isSome_iff_exists.mp hb
      rw [and_congr_left_iff]
      intro _
      simp only [jsDateLe, hx, hy, Option.getD_some]
      constructor
      · intro hle
        simp only [decide_eq_false_iff_not, not_le] at hle
        exact hle
      · intro hlt
        simp only [decide_eq_false_iff_not, not_le]
        exact hlt

/-- Second leg departing the same calendar day as the first. -/
def segNrtLaxSameDay : MultiCitySegment :=
  { sequence_order := 2
    origin_code := "NRT"
    origin_name := "Tokyo Narita"
    destination_code := "LAX"
    destination_name := "Los Angeles"
    departure_date := "2026-11-01" }

/-- C7: for segments whose departure dates all parse,
`validateSegmentDates` succeeds exactly when, in `sequence_order`,
every departure date is strictly later than the previous one; in
particular two segments with equal departure dates make it fail. -/
theorem validateSegmentDates_characterization (segs : List MultiCitySegment)
    (hvalid : ∀ s ∈ segs, (parseDateMs s.departure_date).isSome = true) :
    (validateSegmentDates segs = .ok () ↔
      (sortSegments segs).Chain' (fun a b =>
        (parseDateMs a.departure_date).getD 0 < (parseDateMs b.departure_date).getD 0)) ∧
    validateSegmentDates [segSydNrt, segNrtLaxSameDay] = .error (dateErrorMsg 1) := by
  constructor
  · rw [validateSegmentDates, checkDatesAux_ok_iff]
    exact checkDates_chain_congr (sortSegments segs)
      (fun s hs => hvalid s ((List.mem_mergeSort).mp hs))
  · have hs : sortSegments [segSydNrt, segNrtLaxSameDay] =
        [segSydNrt, segNrtLaxSameDay] := List.mergeSort_of_sorted (by decide)
    rw [validateSegmentDates, hs]
    rfl

/-- C7 witness: two segments with valid, strictly increasing dates. -/
theorem validateSegmentDates_characterization_witness :
    (∀ s ∈ [segSydNrt, segNrtLax], (parseDateMs s.departure_date).isSome = true) ∧
    ((validateSegmentDates [segSydNrt, segNrtLax] = .ok () ↔
      (sortSegments [segSydNrt, segNrtLax]).Chain' (fun a b =>
        (parseDateMs a.departure_date).getD 0 < (parseDateMs b.departure_date).getD 0)) ∧
    validateSegmentDates [segSydNrt, segNrtLaxSameDay] = .error (dateErrorMsg 1)) :=
  ⟨by decide, validateSegmentDates_characterization [segSydNrt, segNrtLax] (by decide)⟩

theorem checkConnAux_ok_iff (i : Nat) (l : List MultiCitySegment) :
    checkConnAux i l = .ok () ↔
      l.Chain' (fun a b => b.origin_code = a.destination_code) := by
  induction l generalizing i with
  | nil => simp [checkConnAux]
  | cons a rest ih =>
    cases rest with
    | nil => simp [checkConnAux]
    | cons b rest2 =>
      simp only [checkConnAux, List.chain'_cons]
      split
      next h => simp [h]
      next h =>
        rw [not_not] at h
        rw [ih (i + 1)]
        simp [h]

/-- Second leg departing from HND although the first leg lands at NRT. -/
def segHndLax : MultiCitySegment :=
  { sequence_order := 2
    origin_code := "HND"
    origin_name := "Tokyo Haneda"
    destination_code := "LAX"
    destination_name := "Los Angeles"
    departure_date := "2026-11-10" }

/-- C8: `validateSegmentConnections` succeeds exactly when, in
`sequence_order`, every segment's origin code equals the previous
segment's destination code; in particular SYD→NRT followed by HND→LAX
fails because NRT ≠ HND. -/
theorem validateSegmentConnections_characterization :
    (∀ segs : List MultiCitySegment,
      validateSegmentConnections segs = .ok () ↔
        (sortSegments segs).Chain' (fun a b => b.origin_code = a.destination_code)) ∧
    validateSegmentConnections [segSydNrt, segHndLax] =
      .error (connErrorMsg 1 "HND" "NRT") := by
  constructor
  · intro segs
    rw [validateSegmentConnections, checkConnAux_ok_iff]
  · have hs : sortSegments [segSydNrt, segHndLax] = [segSydNrt, segHndLax] :=
      List.mergeSort_of_sorted (by decide)
    rw [validateSegmentConnections, hs]
    rfl

/-- C9: `FutureDate` validation, with the evaluation instant an explicit
parameter, accepts a string exactly when it is a well-formed existing
`YYYY-MM-DD` date whose UTC-midnight instant is at least 14 days after
the evaluation instant; consequently the same literal date string is
accepted at one instant and rejected at a later one (dates age out). -/
theorem futureDateAccept_characterization (s : String) (nowMs : Int) :
    (futureDateAccept s nowMs = true ↔
      ∃ y m d, parseYMD s = some (y, m, d) ∧ validYMD y m d = true ∧
        nowMs + 14 * 86400000 ≤ dateMs y m d) ∧
    (futureDateAccept "2026-11-01" 0 = true ∧
      futureDateAccept "2026-11-01" (dateMs 2026 11 1) = false) := by
  refine ⟨?_, by decide, by decide⟩
  unfold futureDateAccept
  split
  next hp => simp [hp]
  next y m d hp =>
    split
    next hv =>
      simp only [hp, hv, ge_iff_le, decide_eq_true_eq, Option.some.injEq, Prod.mk.injEq,
        true_and]
      constructor
      · intro h
        exact ⟨y, m, d, ⟨rfl, rfl, rfl⟩, hv, h⟩
      · rintro ⟨y', m', d', ⟨rfl, rfl, rfl⟩, _, h⟩
        exact h
    next hv => simp [hp, hv]

end AIChat
